import Mathlib

/-!
# Vehicle geometry: `vehicle_info.cpp`

A shallow embedding of `src/common/autoware_vehicle_info_utils/src/vehicle_info.cpp`.

* A C++ `double` is read as an element of a linearly ordered field `α`
  (the rationals for evaluation, the reals for the trigonometric results);
  rounding, infinities and signed zero are outside the model.
* The quiet NaN returned by `calcCurvatureFromSteerAngle` is `none`.
* `RCLCPP_ERROR` calls are recorded, in emission order, in a list of
  `Diagnostic` values returned next to the result.
* `std::tan` and `std::atan2` are library functions, so the two conversions take
  them as arguments; over the reals they are instantiated with `Real.tan` and
  `atan2` below.
-/

namespace autoware.vehicle_info_utils

/-- A point of the plane (`autoware_utils::Point2d`), built by `emplace_back(x, y)`. -/
structure Point2d (α : Type) where
  x : α
  y : α
deriving DecidableEq, Repr

/-- A ring of points (`autoware_utils::LinearRing2d`, a vector of `Point2d`). -/
abbrev LinearRing2d (α : Type) := List (Point2d α)

/-- Modelled from the spec: the declaration of `struct VehicleInfo` is in
`vehicle_info.hpp`, which is not among the sources. The eighteen fields are
listed in the order of the aggregate initialiser at the end of
`createVehicleInfo` (ten base parameters, then eight derived parameters). -/
structure VehicleInfo (α : Type) where
  wheel_radius_m : α
  wheel_width_m : α
  wheel_base_m : α
  wheel_tread_m : α
  front_overhang_m : α
  rear_overhang_m : α
  left_overhang_m : α
  right_overhang_m : α
  vehicle_height_m : α
  max_steer_angle_rad : α
  vehicle_length_m : α
  vehicle_width_m : α
  min_longitudinal_offset_m : α
  max_longitudinal_offset_m : α
  min_lateral_offset_m : α
  max_lateral_offset_m : α
  min_height_offset_m : α
  max_height_offset_m : α
deriving DecidableEq, Repr

/-- The four `RCLCPP_ERROR` messages of the file, with their numeric payloads. -/
inductive Diagnostic (α : Type) where
  /-- Line 63, "wheel_base_m %f is almost 0.0, clamping to %f". -/
  | wheel_base_almost_zero (original replacement : α)
  /-- Line 72, "max_steer_angle_rad %f is almost 0.0, clamping to %f". -/
  | max_steer_angle_almost_zero (original replacement : α)
  /-- Line 87, "given parameters contain non positive values". -/
  | non_positive_values
  /-- Line 135, "wheel_base_m %f should not be 0 or negative". -/
  | wheel_base_not_positive (wheel_base_m : α)
deriving DecidableEq, Repr

section Embedding

variable {α : Type} [LinearOrderedField α]

/-- `VehicleInfo::createFootprint(lat_margin, lon_margin)`, lines 28-51. -/
def VehicleInfo.createFootprint (self : VehicleInfo α) (lat_margin lon_margin : α) :
    LinearRing2d α :=
  let x_front := self.front_overhang_m + self.wheel_base_m + lon_margin
  let x_center := self.wheel_base_m / 2
  let x_rear := -(self.rear_overhang_m + lon_margin)
  let y_left := self.wheel_tread_m / 2 + self.left_overhang_m + lat_margin
  let y_right := -(self.wheel_tread_m / 2 + self.right_overhang_m + lat_margin)
  let footprint : LinearRing2d α := []
  let footprint := footprint ++ [Point2d.mk x_front y_left]
  let footprint := footprint ++ [Point2d.mk x_front y_right]
  let footprint := footprint ++ [Point2d.mk x_center y_right]
  let footprint := footprint ++ [Point2d.mk x_rear y_right]
  let footprint := footprint ++ [Point2d.mk x_rear y_left]
  let footprint := footprint ++ [Point2d.mk x_center y_left]
  let footprint := footprint ++ [Point2d.mk x_front y_left]
  footprint

/-- `VehicleInfo::createFootprint(margin)`, lines 23-26: the one-argument overload. -/
def VehicleInfo.createFootprint1 (self : VehicleInfo α) (margin : α) : LinearRing2d α :=
  self.createFootprint margin margin

/-- `MIN_WHEEL_BASE_M` of `createVehicleInfo`, line 59. -/
def createVehicleInfo.MIN_WHEEL_BASE_M : α := 1e-6

/-- `MAX_STEER_ANGLE_RAD` of `createVehicleInfo`, line 69. -/
def createVehicleInfo.MAX_STEER_ANGLE_RAD : α := 1e-6

/-- `MIN_POSITIVE_VALUE` of `createVehicleInfo`, line 77. -/
def createVehicleInfo.MIN_POSITIVE_VALUE : α := 0

/-- `createVehicleInfo`, lines 53-122: the object and the diagnostics it logged. -/
def createVehicleInfo (wheel_radius_m wheel_width_m wheel_base_m_arg wheel_tread_m
    front_overhang_m rear_overhang_m left_overhang_m right_overhang_m vehicle_height_m
    max_steer_angle_rad_arg : α) : VehicleInfo α × List (Diagnostic α) :=
  let log : List (Diagnostic α) := []
  let wheel_base_m := wheel_base_m_arg
  let log := if |wheel_base_m| < createVehicleInfo.MIN_WHEEL_BASE_M then
      log ++ [Diagnostic.wheel_base_almost_zero wheel_base_m createVehicleInfo.MIN_WHEEL_BASE_M]
    else log
  let wheel_base_m := if |wheel_base_m| < createVehicleInfo.MIN_WHEEL_BASE_M then
      createVehicleInfo.MIN_WHEEL_BASE_M
    else wheel_base_m
  let max_steer_angle_rad := max_steer_angle_rad_arg
  let log := if |max_steer_angle_rad| < createVehicleInfo.MAX_STEER_ANGLE_RAD then
      log ++ [Diagnostic.max_steer_angle_almost_zero max_steer_angle_rad
        createVehicleInfo.MAX_STEER_ANGLE_RAD]
    else log
  let max_steer_angle_rad := if |max_steer_angle_rad| < createVehicleInfo.MAX_STEER_ANGLE_RAD then
      createVehicleInfo.MAX_STEER_ANGLE_RAD
    else max_steer_angle_rad
  let has_non_positive_values : Bool :=
    decide (wheel_radius_m ≤ createVehicleInfo.MIN_POSITIVE_VALUE) ||
    decide (wheel_width_m ≤ createVehicleInfo.MIN_POSITIVE_VALUE) ||
    decide (wheel_base_m ≤ createVehicleInfo.MIN_POSITIVE_VALUE) ||
    decide (wheel_tread_m ≤ createVehicleInfo.MIN_POSITIVE_VALUE) ||
    decide (front_overhang_m ≤ createVehicleInfo.MIN_POSITIVE_VALUE) ||
    decide (rear_overhang_m ≤ createVehicleInfo.MIN_POSITIVE_VALUE) ||
    decide (left_overhang_m ≤ createVehicleInfo.MIN_POSITIVE_VALUE) ||
    decide (right_overhang_m ≤ createVehicleInfo.MIN_POSITIVE_VALUE) ||
    decide (vehicle_height_m ≤ createVehicleInfo.MIN_POSITIVE_VALUE) ||
    decide (max_steer_angle_rad ≤ createVehicleInfo.MIN_POSITIVE_VALUE)
  let log := if has_non_positive_values then log ++ [Diagnostic.non_positive_values] else log
  let vehicle_length_m_ := front_overhang_m + wheel_base_m + rear_overhang_m
  let vehicle_width_m_ := wheel_tread_m + left_overhang_m + right_overhang_m
  let min_longitudinal_offset_m_ := -rear_overhang_m
  let max_longitudinal_offset_m_ := front_overhang_m + wheel_base_m
  let min_lateral_offset_m_ := -(wheel_tread_m / 2 + right_overhang_m)
  let max_lateral_offset_m_ := wheel_tread_m / 2 + left_overhang_m
  let min_height_offset_m_ := 0
  let max_height_offset_m_ := vehicle_height_m
  (VehicleInfo.mk
    wheel_radius_m
    wheel_width_m
    wheel_base_m
    wheel_tread_m
    front_overhang_m
    rear_overhang_m
    left_overhang_m
    right_overhang_m
    vehicle_height_m
    max_steer_angle_rad
    vehicle_length_m_
    vehicle_width_m_
    min_longitudinal_offset_m_
    max_longitudinal_offset_m_
    min_lateral_offset_m_
    max_lateral_offset_m_
    min_height_offset_m_
    max_height_offset_m_, log)

/-- `VehicleInfo::calcMaxCurvature`, lines 124-128. -/
def VehicleInfo.calcMaxCurvature (tan : α → α) (self : VehicleInfo α) : α :=
  let radius := self.wheel_base_m / tan self.max_steer_angle_rad
  1 / radius

/-- `MIN_WHEEL_BASE_M` of `calcCurvatureFromSteerAngle`, line 132. -/
def VehicleInfo.calcCurvatureFromSteerAngle.MIN_WHEEL_BASE_M : α := 1e-6

/-- `VehicleInfo::calcCurvatureFromSteerAngle`, lines 130-144: the returned double
(`none` for the quiet NaN) and the diagnostics logged by the call. -/
def VehicleInfo.calcCurvatureFromSteerAngle (tan : α → α) (self : VehicleInfo α)
    (steer_angle : α) : Option α × List (Diagnostic α) :=
  if self.wheel_base_m < VehicleInfo.calcCurvatureFromSteerAngle.MIN_WHEEL_BASE_M then
    (none, [Diagnostic.wheel_base_not_positive self.wheel_base_m])
  else
    (some (tan steer_angle / self.wheel_base_m), [])

/-- `MIN_CURVATURE` of `calcSteerAngleFromCurvature`, line 148. -/
def VehicleInfo.calcSteerAngleFromCurvature.MIN_CURVATURE : α := 1e-6

/-- `VehicleInfo::calcSteerAngleFromCurvature`, lines 146-155. -/
def VehicleInfo.calcSteerAngleFromCurvature (atan2 : α → α → α) (self : VehicleInfo α)
    (curvature : α) : α :=
  if |curvature| < VehicleInfo.calcSteerAngleFromCurvature.MIN_CURVATURE then
    0
  else
    let radius := 1 / curvature
    atan2 self.wheel_base_m radius

end Embedding

/-- The C library function `atan2(y, x)` on real numbers: the angle in `(-π, π]` of the
point `(x, y)`, computed from `arctan (y / x)` and the quadrant; `atan2(0, 0) = 0`. -/
noncomputable def atan2 (y x : ℝ) : ℝ :=
  if 0 < x then Real.arctan (y / x)
  else if x < 0 then
    if 0 ≤ y then Real.arctan (y / x) + Real.pi else Real.arctan (y / x) - Real.pi
  else if 0 < y then Real.pi / 2
  else if y < 0 then -(Real.pi / 2)
  else 0

/-- The geometry of the scenario in the specification:
`createVehicleInfo(0.3, 0.2, 2.5, 1.5, 0.4, 0.3, 0.1, 0.1, 1.8, 0.5)`. -/
def scenario (α : Type) [LinearOrderedField α] : VehicleInfo α :=
  (createVehicleInfo (0.3 : α) 0.2 2.5 1.5 0.4 0.3 0.1 0.1 1.8 0.5).1

/-- Squared Euclidean length of the edge from `p` to `q`, used to compare the lengths
of two edges of a footprint without a square root. -/
def edge_length_sq {α : Type} [LinearOrderedField α] (p q : Point2d α) : α :=
  (q.x - p.x) ^ 2 + (q.y - p.y) ^ 2

/-- The box `[x_min, x_max] × [y_min, y_max]` is the bounding box of `ring`: it holds
every point of the ring, and each of its four bounds is the coordinate of a point of the
ring. -/
def is_bounding_box {α : Type} [LinearOrderedField α] (ring : LinearRing2d α)
    (x_min x_max y_min y_max : α) : Prop :=
  (∀ p ∈ ring, (x_min ≤ p.x ∧ p.x ≤ x_max) ∧ (y_min ≤ p.y ∧ p.y ≤ y_max)) ∧
  (∃ p ∈ ring, p.x = x_min) ∧ (∃ p ∈ ring, p.x = x_max) ∧
  (∃ p ∈ ring, p.y = y_min) ∧ (∃ p ∈ ring, p.y = y_max)

instance is_bounding_box.decidable {α : Type} [LinearOrderedField α] (ring : LinearRing2d α)
    (x_min x_max y_min y_max : α) : Decidable (is_bounding_box ring x_min x_max y_min y_max) := by
  unfold is_bounding_box
  infer_instance

/-! ## Unfolding lemmas for the factory -/

section Factory

variable {α : Type} [LinearOrderedField α]

theorem clamp_threshold_pos : (0 : α) < 1e-6 := by norm_num

theorem createVehicleInfo_wheel_base_m (r w b t f re l ri h s : α) :
    (createVehicleInfo r w b t f re l ri h s).1.wheel_base_m
      = if |b| < 1e-6 then 1e-6 else b := rfl

theorem createVehicleInfo_max_steer_angle_rad (r w b t f re l ri h s : α) :
    (createVehicleInfo r w b t f re l ri h s).1.max_steer_angle_rad
      = if |s| < 1e-6 then 1e-6 else s := rfl

/-- The clamp applied to both the wheel base and the maximum steer angle: the result
has magnitude at least `1e-6`. -/
theorem clamp_abs_ge (b : α) : (1e-6 : α) ≤ |if |b| < 1e-6 then (1e-6 : α) else b| := by
  split_ifs with hb
  · exact le_abs_self _
  · exact not_lt.mp hb

theorem clamp_sign (b : α) :
    SignType.sign (if |b| < 1e-6 then (1e-6 : α) else b) = SignType.sign b ∨
      ((if |b| < 1e-6 then (1e-6 : α) else b) = 1e-6 ∧ -1e-6 ≤ b ∧ b ≤ 1e-6) := by
  split_ifs with hb
  · exact Or.inr ⟨rfl, (abs_lt.mp hb).1.le, (abs_lt.mp hb).2.le⟩
  · exact Or.inl rfl

/-- The diagnostics of the factory, in emission order: the wheel-base clamp message, the
steer-angle clamp message, the non-positive-values message, each present or absent. -/
theorem createVehicleInfo_log (r w b t f re l ri h s : α) :
    (createVehicleInfo r w b t f re l ri h s).2 =
      (if |b| < 1e-6 then [Diagnostic.wheel_base_almost_zero b 1e-6] else []) ++
      (if |s| < 1e-6 then [Diagnostic.max_steer_angle_almost_zero s 1e-6] else []) ++
      (if r ≤ 0 ∨ w ≤ 0 ∨ (createVehicleInfo r w b t f re l ri h s).1.wheel_base_m ≤ 0 ∨
          t ≤ 0 ∨ f ≤ 0 ∨ re ≤ 0 ∨ l ≤ 0 ∨ ri ≤ 0 ∨ h ≤ 0 ∨
          (createVehicleInfo r w b t f re l ri h s).1.max_steer_angle_rad ≤ 0
        then [Diagnostic.non_positive_values] else []) := by
  simp only [createVehicleInfo, createVehicleInfo.MIN_WHEEL_BASE_M,
    createVehicleInfo.MAX_STEER_ANGLE_RAD, createVehicleInfo.MIN_POSITIVE_VALUE]
  by_cases hb : |b| < 1e-6 <;> by_cases hs : |s| < 1e-6 <;>
    simp only [hb, hs, if_true, if_false, List.nil_append, List.append_nil, Bool.or_eq_true,
      decide_eq_true_eq, or_assoc] <;>
    split_ifs <;> simp

theorem calcCurvatureFromSteerAngle_of_lt (tan : α → α) (v : VehicleInfo α) (s : α)
    (h : v.wheel_base_m < 1e-6) :
    v.calcCurvatureFromSteerAngle tan s
      = (none, [Diagnostic.wheel_base_not_positive v.wheel_base_m]) := if_pos h

theorem calcCurvatureFromSteerAngle_of_ge (tan : α → α) (v : VehicleInfo α) (s : α)
    (h : 1e-6 ≤ v.wheel_base_m) :
    v.calcCurvatureFromSteerAngle tan s = (some (tan s / v.wheel_base_m), []) :=
  if_neg (not_lt.mpr h)

theorem calcSteerAngleFromCurvature_of_lt (atan2 : α → α → α) (v : VehicleInfo α) (c : α)
    (h : |c| < 1e-6) : v.calcSteerAngleFromCurvature atan2 c = 0 := if_pos h

theorem calcSteerAngleFromCurvature_of_ge (atan2 : α → α → α) (v : VehicleInfo α) (c : α)
    (h : 1e-6 ≤ |c|) : v.calcSteerAngleFromCurvature atan2 c = atan2 v.wheel_base_m (1 / c) :=
  if_neg (not_lt.mpr h)

end Factory

/-! ## The real `atan2` -/

/-- The tangent of `atan2 y x` is `y / x` as soon as `x` is not zero. -/
theorem tan_atan2 (y x : ℝ) (hx : x ≠ 0) : Real.tan (atan2 y x) = y / x := by
  unfold atan2
  rcases lt_or_gt_of_ne hx with hneg | hpos
  · rw [if_neg (not_lt.mpr hneg.le), if_pos hneg]
    split_ifs
    · rw [Real.tan_periodic, Real.tan_arctan]
    · rw [Real.tan_periodic.sub_eq, Real.tan_arctan]
  · rw [if_pos hpos, Real.tan_arctan]

/-- With `y > 0` and `x < 0` the angle `atan2 y x` is obtuse: strictly between `π / 2`
and `π`. -/
theorem atan2_obtuse (y x : ℝ) (hy : 0 < y) (hx : x < 0) :
    Real.pi / 2 < atan2 y x ∧ atan2 y x < Real.pi := by
  unfold atan2
  rw [if_neg (not_lt.mpr hx.le), if_pos hx, if_pos hy.le]
  have h1 := Real.neg_pi_div_two_lt_arctan (y / x)
  have h2 : Real.arctan (y / x) < 0 := by
    rw [← Real.arctan_zero]
    exact Real.arctan_strictMono (div_neg_of_pos_of_neg hy hx)
  constructor <;> linarith

/-- With `y > 0` and `x > 0` the angle `atan2 y x` is acute: strictly between `0` and
`π / 2`. -/
theorem atan2_acute (y x : ℝ) (hy : 0 < y) (hx : 0 < x) :
    0 < atan2 y x ∧ atan2 y x < Real.pi / 2 := by
  unfold atan2
  rw [if_pos hx]
  refine ⟨?_, Real.arctan_lt_pi_div_two _⟩
  rw [← Real.arctan_zero]
  exact Real.arctan_strictMono (div_pos hy hx)

/-- The factory keeps a wheel base argument above `-1e-6` at or above `1e-6`. -/
theorem createVehicleInfo_wheel_base_m_ge {α : Type} [LinearOrderedField α]
    (r w b t f re l ri h s : α) (hb : -1e-6 < b) :
    (1e-6 : α) ≤ (createVehicleInfo r w b t f re l ri h s).1.wheel_base_m := by
  rw [createVehicleInfo_wheel_base_m]
  split_ifs with hlt
  · exact le_rfl
  · rcases le_abs.mp (not_lt.mp hlt) with h1 | h1
    · exact h1
    · exact absurd (neg_lt.mp hb) (not_lt.mpr (by linarith))

/-! ## Claims -/

/-- The factory keeps a wheel base argument at or below `-1e-6` as it is. -/
theorem createVehicleInfo_wheel_base_m_of_le {α : Type} [LinearOrderedField α]
    (r w b t f re l ri h s : α) (hb : b ≤ -1e-6) :
    (createVehicleInfo r w b t f re l ri h s).1.wheel_base_m = b := by
  have h0 : (0 : α) < 1e-6 := clamp_threshold_pos
  rw [createVehicleInfo_wheel_base_m, if_neg]
  rw [not_lt, le_abs]
  exact Or.inr (by linarith)

/-- The factory on arguments whose wheel base and maximum steer angle are not near
zero: the object holds the ten arguments and the eight derived values. -/
theorem createVehicleInfo_of_not_clamped {α : Type} [LinearOrderedField α]
    (r w b t f re l ri h s : α) (hb : 1e-6 ≤ |b|) (hs : 1e-6 ≤ |s|) :
    (createVehicleInfo r w b t f re l ri h s).1 =
      VehicleInfo.mk r w b t f re l ri h s (f + b + re) (t + l + ri) (-re) (f + b)
        (-(t / 2 + ri)) (t / 2 + l) 0 h := by
  simp only [createVehicleInfo, createVehicleInfo.MIN_WHEEL_BASE_M,
    createVehicleInfo.MAX_STEER_ANGLE_RAD, if_neg (not_lt.mpr hb), if_neg (not_lt.mpr hs)]

section Claims

variable {α : Type} [LinearOrderedField α]

/-- C1: for every ten arguments of `createVehicleInfo`, the constructed `wheel_base_m`
is the supplied wheel base when its absolute value is at least `1e-6` and is exactly
`+1e-6` when its absolute value is below `1e-6`; `max_steer_angle_rad` is treated the
same way. Hence both fields have magnitude at least `1e-6`, are not zero, and either
have the sign of the argument or are the clamp value `1e-6` with the argument inside
`[-1e-6, 1e-6]`. -/
theorem createVehicleInfo_clamps_wheel_base_and_max_steer_angle
    (wheel_radius_m wheel_width_m wheel_base_m_arg wheel_tread_m front_overhang_m
      rear_overhang_m left_overhang_m right_overhang_m vehicle_height_m
      max_steer_angle_rad_arg : α) :
    (let v := (createVehicleInfo wheel_radius_m wheel_width_m wheel_base_m_arg wheel_tread_m
      front_overhang_m rear_overhang_m left_overhang_m right_overhang_m vehicle_height_m
      max_steer_angle_rad_arg).1
    ((1e-6 ≤ |wheel_base_m_arg| → v.wheel_base_m = wheel_base_m_arg) ∧
      (|wheel_base_m_arg| < 1e-6 → v.wheel_base_m = 1e-6)) ∧
    ((1e-6 ≤ |max_steer_angle_rad_arg| → v.max_steer_angle_rad = max_steer_angle_rad_arg) ∧
      (|max_steer_angle_rad_arg| < 1e-6 → v.max_steer_angle_rad = 1e-6)) ∧
    (1e-6 ≤ |v.wheel_base_m| ∧ 1e-6 ≤ |v.max_steer_angle_rad|) ∧
    (v.wheel_base_m ≠ 0 ∧ v.max_steer_angle_rad ≠ 0) ∧
    (SignType.sign v.wheel_base_m = SignType.sign wheel_base_m_arg ∨
      (v.wheel_base_m = 1e-6 ∧ -1e-6 ≤ wheel_base_m_arg ∧ wheel_base_m_arg ≤ 1e-6)) ∧
    (SignType.sign v.max_steer_angle_rad = SignType.sign max_steer_angle_rad_arg ∨
      (v.max_steer_angle_rad = 1e-6 ∧
        -1e-6 ≤ max_steer_angle_rad_arg ∧ max_steer_angle_rad_arg ≤ 1e-6))) := by
  intro v
  have hb : v.wheel_base_m = if |wheel_base_m_arg| < 1e-6 then 1e-6 else wheel_base_m_arg :=
    rfl
  have hs : v.max_steer_angle_rad =
      if |max_steer_angle_rad_arg| < 1e-6 then 1e-6 else max_steer_angle_rad_arg := rfl
  have h0 : (0 : α) < 1e-6 := clamp_threshold_pos
  have hbge : (1e-6 : α) ≤ |v.wheel_base_m| := hb ▸ clamp_abs_ge wheel_base_m_arg
  have hsge : (1e-6 : α) ≤ |v.max_steer_angle_rad| := hs ▸ clamp_abs_ge max_steer_angle_rad_arg
  refine ⟨⟨fun h => ?_, fun h => ?_⟩, ⟨fun h => ?_, fun h => ?_⟩, ⟨hbge, hsge⟩, ⟨?_, ?_⟩, ?_, ?_⟩
  · rw [hb, if_neg (not_lt.mpr h)]
  · rw [hb, if_pos h]
  · rw [hs, if_neg (not_lt.mpr h)]
  · rw [hs, if_pos h]
  · exact abs_pos.mp (lt_of_lt_of_le h0 hbge)
  · exact abs_pos.mp (lt_of_lt_of_le h0 hsge)
  · rw [hb]; exact clamp_sign wheel_base_m_arg
  · rw [hs]; exact clamp_sign max_steer_angle_rad_arg

/-- Witness of C1 over the rationals: a negative near-zero wheel base `-1e-7` is
replaced by `+1e-6`, and a negative maximum steer angle `-0.5` is kept. -/
theorem createVehicleInfo_clamps_wheel_base_and_max_steer_angle_witness :
    (createVehicleInfo (0.3 : ℚ) 0.2 (-1e-7) 1.5 0.4 0.3 0.1 0.1 1.8 (-0.5)).1.wheel_base_m
        = 1e-6 ∧
      (createVehicleInfo (0.3 : ℚ) 0.2 (-1e-7) 1.5 0.4 0.3 0.1 0.1 1.8
        (-0.5)).1.max_steer_angle_rad = -0.5 :=
  ⟨(createVehicleInfo_clamps_wheel_base_and_max_steer_angle
      (0.3 : ℚ) 0.2 (-1e-7) 1.5 0.4 0.3 0.1 0.1 1.8 (-0.5)).1.2 (by norm_num [abs_lt]),
   (createVehicleInfo_clamps_wheel_base_and_max_steer_angle
      (0.3 : ℚ) 0.2 (-1e-7) 1.5 0.4 0.3 0.1 0.1 1.8 (-0.5)).2.1.1 (by norm_num [le_abs])⟩

/-- C3: on every constructed object `vehicle_length_m = front_overhang_m + wheel_base_m +
rear_overhang_m` and `vehicle_width_m = wheel_tread_m + left_overhang_m +
right_overhang_m`, with the object's own (clamped) wheel base and the overhangs and tread
as supplied; for the arguments `(0.3, 0.2, 2.5, 1.5, 0.4, 0.3, 0.1, 0.1, 1.8, 0.5)` the
length is `3.2` and the width is `1.7`. -/
theorem createVehicleInfo_length_and_width
    (wheel_radius_m wheel_width_m wheel_base_m_arg wheel_tread_m front_overhang_m
      rear_overhang_m left_overhang_m right_overhang_m vehicle_height_m
      max_steer_angle_rad_arg : α) :
    (let v := (createVehicleInfo wheel_radius_m wheel_width_m wheel_base_m_arg wheel_tread_m
      front_overhang_m rear_overhang_m left_overhang_m right_overhang_m vehicle_height_m
      max_steer_angle_rad_arg).1
    (v.vehicle_length_m = v.front_overhang_m + v.wheel_base_m + v.rear_overhang_m ∧
      v.vehicle_width_m = v.wheel_tread_m + v.left_overhang_m + v.right_overhang_m) ∧
    (v.vehicle_length_m = front_overhang_m +
        (if |wheel_base_m_arg| < 1e-6 then 1e-6 else wheel_base_m_arg) + rear_overhang_m ∧
      v.vehicle_width_m = wheel_tread_m + left_overhang_m + right_overhang_m) ∧
    ((scenario α).vehicle_length_m = 3.2 ∧ (scenario α).vehicle_width_m = 1.7)) := by
  refine ⟨⟨rfl, rfl⟩, ⟨rfl, rfl⟩, ?_, ?_⟩
  · norm_num [scenario, createVehicleInfo, createVehicleInfo.MIN_WHEEL_BASE_M, abs_lt]
  · norm_num [scenario, createVehicleInfo]

/-- C4: on every constructed object `min_longitudinal_offset_m = -rear_overhang_m`,
`max_longitudinal_offset_m = front_overhang_m + wheel_base_m` (clamped wheel base),
`min_lateral_offset_m = -(wheel_tread_m / 2 + right_overhang_m)`,
`max_lateral_offset_m = wheel_tread_m / 2 + left_overhang_m`, `min_height_offset_m = 0`
and `max_height_offset_m = vehicle_height_m`; for the arguments
`(0.3, 0.2, 2.5, 1.5, 0.4, 0.3, 0.1, 0.1, 1.8, 0.5)` the longitudinal range is
`[-0.3, 2.9]`. -/
theorem createVehicleInfo_offset_ranges
    (wheel_radius_m wheel_width_m wheel_base_m_arg wheel_tread_m front_overhang_m
      rear_overhang_m left_overhang_m right_overhang_m vehicle_height_m
      max_steer_angle_rad_arg : α) :
    (let v := (createVehicleInfo wheel_radius_m wheel_width_m wheel_base_m_arg wheel_tread_m
      front_overhang_m rear_overhang_m left_overhang_m right_overhang_m vehicle_height_m
      max_steer_angle_rad_arg).1
    (v.min_longitudinal_offset_m = -v.rear_overhang_m ∧
      v.max_longitudinal_offset_m = v.front_overhang_m + v.wheel_base_m ∧
      v.min_lateral_offset_m = -(v.wheel_tread_m / 2 + v.right_overhang_m) ∧
      v.max_lateral_offset_m = v.wheel_tread_m / 2 + v.left_overhang_m ∧
      v.min_height_offset_m = 0 ∧
      v.max_height_offset_m = v.vehicle_height_m) ∧
    (v.min_longitudinal_offset_m = -rear_overhang_m ∧
      v.max_longitudinal_offset_m = front_overhang_m +
        (if |wheel_base_m_arg| < 1e-6 then 1e-6 else wheel_base_m_arg) ∧
      v.min_lateral_offset_m = -(wheel_tread_m / 2 + right_overhang_m) ∧
      v.max_lateral_offset_m = wheel_tread_m / 2 + left_overhang_m ∧
      v.max_height_offset_m = vehicle_height_m) ∧
    ((scenario α).min_longitudinal_offset_m = -0.3 ∧
      (scenario α).max_longitudinal_offset_m = 2.9)) := by
  refine ⟨⟨rfl, rfl, rfl, rfl, rfl, rfl⟩, ⟨rfl, rfl, rfl, rfl, rfl⟩, ?_, ?_⟩
  · norm_num [scenario, createVehicleInfo]
  · norm_num [scenario, createVehicleInfo, createVehicleInfo.MIN_WHEEL_BASE_M, abs_lt]

/-- C5: for every geometry and every `lat_margin`, `lon_margin` (of any sign),
`createFootprint` returns, in this order, `(x_front, y_left)`, `(x_front, y_right)`,
`(x_center, y_right)`, `(x_rear, y_right)`, `(x_rear, y_left)`, `(x_center, y_left)`,
`(x_front, y_left)` with the five coordinates of the specification; on the scenario
geometry with zero margins vertex 1 is `(2.9, 0.85)` and vertex 3 is `(1.25, -0.85)`. -/
theorem createFootprint_vertices (v : VehicleInfo α) (lat_margin lon_margin : α) :
    (let x_front := v.front_overhang_m + v.wheel_base_m + lon_margin
     let x_center := v.wheel_base_m / 2
     let x_rear := -(v.rear_overhang_m + lon_margin)
     let y_left := v.wheel_tread_m / 2 + v.left_overhang_m + lat_margin
     let y_right := -(v.wheel_tread_m / 2 + v.right_overhang_m + lat_margin)
     v.createFootprint lat_margin lon_margin =
       [⟨x_front, y_left⟩, ⟨x_front, y_right⟩, ⟨x_center, y_right⟩, ⟨x_rear, y_right⟩,
        ⟨x_rear, y_left⟩, ⟨x_center, y_left⟩, ⟨x_front, y_left⟩]) ∧
    ((scenario α).createFootprint 0 0)[0]? = some ⟨2.9, 0.85⟩ ∧
    ((scenario α).createFootprint 0 0)[2]? = some ⟨1.25, -0.85⟩ := by
  refine ⟨rfl, ?_, ?_⟩
  · norm_num [scenario, createVehicleInfo, createVehicleInfo.MIN_WHEEL_BASE_M, abs_lt,
      VehicleInfo.createFootprint]
  · norm_num [scenario, createVehicleInfo, createVehicleInfo.MIN_WHEEL_BASE_M, abs_lt,
      VehicleInfo.createFootprint]

/-- C6: for every geometry and every pair of margins the polygon returned by
`createFootprint` has exactly 7 points, and its point 6 equals its point 0: the ring is
closed. -/
theorem createFootprint_closed_ring (v : VehicleInfo α) (lat_margin lon_margin : α) :
    (v.createFootprint lat_margin lon_margin).length = 7 ∧
    ∃ p : Point2d α, (v.createFootprint lat_margin lon_margin)[0]? = some p ∧
      (v.createFootprint lat_margin lon_margin)[6]? = some p ∧
      (v.createFootprint lat_margin lon_margin).head? = some p ∧
      (v.createFootprint lat_margin lon_margin).getLast? = some p :=
  ⟨rfl, _, rfl, rfl, rfl, rfl⟩

/-- C7: for every geometry and every margin `m`, the one-argument `createFootprint(m)`
returns the polygon of `createFootprint(m, m)`: the margin is applied to both the
lateral and the longitudinal axis. -/
theorem createFootprint1_eq_createFootprint (v : VehicleInfo α) (m : α) :
    v.createFootprint1 m = v.createFootprint m m ∧
    v.createFootprint1 m =
      [⟨v.front_overhang_m + v.wheel_base_m + m, v.wheel_tread_m / 2 + v.left_overhang_m + m⟩,
       ⟨v.front_overhang_m + v.wheel_base_m + m,
         -(v.wheel_tread_m / 2 + v.right_overhang_m + m)⟩,
       ⟨v.wheel_base_m / 2, -(v.wheel_tread_m / 2 + v.right_overhang_m + m)⟩,
       ⟨-(v.rear_overhang_m + m), -(v.wheel_tread_m / 2 + v.right_overhang_m + m)⟩,
       ⟨-(v.rear_overhang_m + m), v.wheel_tread_m / 2 + v.left_overhang_m + m⟩,
       ⟨v.wheel_base_m / 2, v.wheel_tread_m / 2 + v.left_overhang_m + m⟩,
       ⟨v.front_overhang_m + v.wheel_base_m + m, v.wheel_tread_m / 2 + v.left_overhang_m + m⟩] :=
  ⟨rfl, rfl⟩

/-- C2, as stated, fails: `createVehicleInfo` keeps the wheel base `-2.5`, the curvature
`1` has magnitude at least `1e-6`, and converting it to a steer angle and back returns
the NaN sentinel with the wheel-base diagnostic instead of `1`. -/
theorem roundtrip_fails_for_negative_wheel_base :
    (1e-6 : ℝ) ≤ |1| ∧
    (createVehicleInfo (0.3 : ℝ) 0.2 (-2.5) 1.5 0.4 0.3 0.1 0.1 1.8 0.5).1.wheel_base_m
      = -2.5 ∧
    (createVehicleInfo (0.3 : ℝ) 0.2 (-2.5) 1.5 0.4 0.3 0.1 0.1 1.8
        0.5).1.calcCurvatureFromSteerAngle Real.tan
      ((createVehicleInfo (0.3 : ℝ) 0.2 (-2.5) 1.5 0.4 0.3 0.1 0.1 1.8
        0.5).1.calcSteerAngleFromCurvature atan2 1)
      = (none, [Diagnostic.wheel_base_not_positive (-2.5)]) ∧
    ((createVehicleInfo (0.3 : ℝ) 0.2 (-2.5) 1.5 0.4 0.3 0.1 0.1 1.8
        0.5).1.calcCurvatureFromSteerAngle Real.tan
      ((createVehicleInfo (0.3 : ℝ) 0.2 (-2.5) 1.5 0.4 0.3 0.1 0.1 1.8
        0.5).1.calcSteerAngleFromCurvature atan2 1)).1 ≠ some 1 := by
  have hb : (createVehicleInfo (0.3 : ℝ) 0.2 (-2.5) 1.5 0.4 0.3 0.1 0.1 1.8
      0.5).1.wheel_base_m = -2.5 := by
    rw [createVehicleInfo_wheel_base_m]; norm_num [abs_lt]
  have hr : ∀ s : ℝ, (createVehicleInfo (0.3 : ℝ) 0.2 (-2.5) 1.5 0.4 0.3 0.1 0.1 1.8
      0.5).1.calcCurvatureFromSteerAngle Real.tan s
      = (none, [Diagnostic.wheel_base_not_positive (-2.5)]) := by
    intro s
    rw [calcCurvatureFromSteerAngle_of_lt _ _ _ (by rw [hb]; norm_num), hb]
  refine ⟨by norm_num, hb, hr _, ?_⟩
  rw [hr]
  simp

/-- C2 (amended): for every curvature `c` with `|c| ≥ 1e-6` and every geometry returned by
`createVehicleInfo` from a wheel base argument above `-1e-6` (so that the constructed
wheel base is at least `1e-6`), `calcCurvatureFromSteerAngle` applied to
`calcSteerAngleFromCurvature c` returns `c`, with no diagnostic. -/
theorem roundtrip_curvature
    (wheel_radius_m wheel_width_m wheel_base_m_arg wheel_tread_m front_overhang_m
      rear_overhang_m left_overhang_m right_overhang_m vehicle_height_m
      max_steer_angle_rad_arg c : ℝ)
    (hc : 1e-6 ≤ |c|) (hb : -1e-6 < wheel_base_m_arg) :
    (let v := (createVehicleInfo wheel_radius_m wheel_width_m wheel_base_m_arg wheel_tread_m
      front_overhang_m rear_overhang_m left_overhang_m right_overhang_m vehicle_height_m
      max_steer_angle_rad_arg).1
    v.calcCurvatureFromSteerAngle Real.tan (v.calcSteerAngleFromCurvature atan2 c)
      = (some c, [])) := by
  intro v
  have hwb : (1e-6 : ℝ) ≤ v.wheel_base_m :=
    createVehicleInfo_wheel_base_m_ge _ _ _ _ _ _ _ _ _ _ hb
  have h0 : (0 : ℝ) < 1e-6 := clamp_threshold_pos
  have hwb0 : v.wheel_base_m ≠ 0 := (lt_of_lt_of_le h0 hwb).ne.symm
  have hc0 : c ≠ 0 := abs_pos.mp (lt_of_lt_of_le h0 hc)
  rw [calcCurvatureFromSteerAngle_of_ge _ _ _ hwb, calcSteerAngleFromCurvature_of_ge _ _ _ hc,
    tan_atan2 _ _ (one_div_ne_zero hc0)]
  congr 2
  field_simp

/-- Witness of the amended C2 on the scenario geometry (wheel base `2.5`) at the
curvature `-0.1`. -/
theorem roundtrip_curvature_witness :
    (1e-6 : ℝ) ≤ |(-0.1)| ∧ (-1e-6 : ℝ) < 2.5 ∧
    (createVehicleInfo (0.3 : ℝ) 0.2 2.5 1.5 0.4 0.3 0.1 0.1 1.8
        0.5).1.calcCurvatureFromSteerAngle Real.tan
      ((createVehicleInfo (0.3 : ℝ) 0.2 2.5 1.5 0.4 0.3 0.1 0.1 1.8
        0.5).1.calcSteerAngleFromCurvature atan2 (-0.1)) = (some (-0.1), []) :=
  ⟨by norm_num [le_abs], by norm_num,
    roundtrip_curvature 0.3 0.2 2.5 1.5 0.4 0.3 0.1 0.1 1.8 0.5 (-0.1)
      (by norm_num [le_abs]) (by norm_num)⟩

/-- C8: for every geometry and every curvature `c`, `calcSteerAngleFromCurvature c`
is exactly `0` when `|c| < 1e-6` and is `atan2(wheel_base_m, 1 / c)` otherwise; the
curvature `1e-6` itself takes the second branch. -/
theorem calcSteerAngleFromCurvature_cases (atan2 : α → α → α) (v : VehicleInfo α) (c : α) :
    (|c| < 1e-6 → v.calcSteerAngleFromCurvature atan2 c = 0) ∧
    (1e-6 ≤ |c| → v.calcSteerAngleFromCurvature atan2 c = atan2 v.wheel_base_m (1 / c)) ∧
    v.calcSteerAngleFromCurvature atan2 1e-6 = atan2 v.wheel_base_m (1 / 1e-6) ∧
    v.calcSteerAngleFromCurvature atan2 (-1e-6) = atan2 v.wheel_base_m (1 / -1e-6) := by
  have h0 : (0 : α) < 1e-6 := clamp_threshold_pos
  refine ⟨fun h => ?_, fun h => ?_, ?_, ?_⟩
  · exact calcSteerAngleFromCurvature_of_lt atan2 v c h
  · exact calcSteerAngleFromCurvature_of_ge atan2 v c h
  · exact calcSteerAngleFromCurvature_of_ge atan2 v _ (by rw [abs_of_pos h0])
  · exact calcSteerAngleFromCurvature_of_ge atan2 v _ (by rw [abs_neg, abs_of_pos h0])

/-- Witness of C8 over the reals on the scenario geometry: the curvature `1e-7` gives the
steer angle `0`, and the curvature `1e-6` gives `atan2 2.5 (1 / 1e-6)`, which is not `0`. -/
theorem calcSteerAngleFromCurvature_cases_witness :
    (scenario ℝ).calcSteerAngleFromCurvature atan2 1e-7 = 0 ∧
    (scenario ℝ).calcSteerAngleFromCurvature atan2 1e-6
      = atan2 (scenario ℝ).wheel_base_m (1 / 1e-6) ∧
    atan2 (scenario ℝ).wheel_base_m (1 / 1e-6) ≠ 0 := by
  have hwb : (scenario ℝ).wheel_base_m = 2.5 := by
    norm_num [scenario, createVehicleInfo, createVehicleInfo.MIN_WHEEL_BASE_M, abs_lt]
  refine ⟨(calcSteerAngleFromCurvature_cases atan2 (scenario ℝ) 1e-7).1
      (by norm_num [abs_lt]),
    (calcSteerAngleFromCurvature_cases atan2 (scenario ℝ) 1e-6).2.2.1, ?_⟩
  rw [hwb]
  exact (atan2_acute _ _ (by norm_num) (by norm_num)).1.ne.symm

/-- C9 fails on the code: on the scenario geometry (wheel base `2.5 > 0`) the curvature
`-0.1` is negative with magnitude at least `1e-6`, and `calcSteerAngleFromCurvature`
returns `atan2 2.5 (-10) = arctan (-1/4) + π`, an angle strictly between `π / 2` and `π`:
it is positive, not negative. -/
theorem calcSteerAngleFromCurvature_negative_curvature_positive_angle :
    (0 : ℝ) < (scenario ℝ).wheel_base_m ∧ (1e-6 : ℝ) ≤ |(-0.1)| ∧ (-0.1 : ℝ) < 0 ∧
    (scenario ℝ).calcSteerAngleFromCurvature atan2 (-0.1)
      = Real.arctan (-1 / 4) + Real.pi ∧
    Real.pi / 2 < (scenario ℝ).calcSteerAngleFromCurvature atan2 (-0.1) ∧
    0 < (scenario ℝ).calcSteerAngleFromCurvature atan2 (-0.1) ∧
    ¬ (scenario ℝ).calcSteerAngleFromCurvature atan2 (-0.1) < 0 := by
  have hwb : (scenario ℝ).wheel_base_m = 2.5 := by
    norm_num [scenario, createVehicleInfo, createVehicleInfo.MIN_WHEEL_BASE_M, abs_lt]
  have hval : (scenario ℝ).calcSteerAngleFromCurvature atan2 (-0.1) = atan2 2.5 (-10) := by
    rw [calcSteerAngleFromCurvature_of_ge _ _ _ (by norm_num [le_abs]), hwb]
    norm_num
  have hob := atan2_obtuse 2.5 (-10) (by norm_num) (by norm_num)
  have hpi := Real.pi_pos
  refine ⟨by rw [hwb]; norm_num, by norm_num [le_abs], by norm_num, ?_, ?_, ?_, ?_⟩
  · rw [hval]
    unfold atan2
    rw [if_neg (by norm_num), if_pos (by norm_num), if_pos (by norm_num)]
    norm_num
  · rw [hval]; exact hob.1
  · rw [hval]; linarith [hob.1]
  · rw [hval]; linarith [hob.1]

/-- C10: for every geometry value and every steer angle, `calcCurvatureFromSteerAngle`
returns the NaN sentinel, with exactly one diagnostic, if and only if `wheel_base_m` is
below `1e-6`; otherwise it returns `tan steer_angle / wheel_base_m` with no diagnostic,
also at the steer angles `π / 2` and `-π / 2`. -/
theorem calcCurvatureFromSteerAngle_nan_iff (v : VehicleInfo ℝ) (steer_angle : ℝ) :
    ((v.calcCurvatureFromSteerAngle Real.tan steer_angle).1 = none ↔
      v.wheel_base_m < 1e-6) ∧
    ((v.calcCurvatureFromSteerAngle Real.tan steer_angle).2
        = [Diagnostic.wheel_base_not_positive v.wheel_base_m] ↔ v.wheel_base_m < 1e-6) ∧
    (v.calcCurvatureFromSteerAngle Real.tan steer_angle
        = (some (Real.tan steer_angle / v.wheel_base_m), []) ↔ ¬ v.wheel_base_m < 1e-6) ∧
    (¬ v.wheel_base_m < 1e-6 →
      v.calcCurvatureFromSteerAngle Real.tan (Real.pi / 2)
          = (some (Real.tan (Real.pi / 2) / v.wheel_base_m), []) ∧
        v.calcCurvatureFromSteerAngle Real.tan (-(Real.pi / 2))
          = (some (Real.tan (-(Real.pi / 2)) / v.wheel_base_m), [])) := by
  unfold VehicleInfo.calcCurvatureFromSteerAngle
    VehicleInfo.calcCurvatureFromSteerAngle.MIN_WHEEL_BASE_M
  by_cases h : v.wheel_base_m < 1e-6
  · simp [h]
  · simp [h]

/-- C11, as stated, fails: `createVehicleInfo` keeps the wheel base `-1`, and on the
object it returns `calcCurvatureFromSteerAngle` takes the branch `wheel_base_m < 1e-6`
for the steer angle `0.3`: it returns the NaN sentinel and logs the diagnostic. -/
theorem factory_object_takes_nan_branch :
    (createVehicleInfo (0.3 : ℝ) 0.2 (-1) 1.5 0.4 0.3 0.1 0.1 1.8 0.5).1.wheel_base_m < 1e-6 ∧
    (createVehicleInfo (0.3 : ℝ) 0.2 (-1) 1.5 0.4 0.3 0.1 0.1 1.8
        0.5).1.calcCurvatureFromSteerAngle Real.tan 0.3
      = (none, [Diagnostic.wheel_base_not_positive (-1)]) := by
  have hb : (createVehicleInfo (0.3 : ℝ) 0.2 (-1) 1.5 0.4 0.3 0.1 0.1 1.8
      0.5).1.wheel_base_m = -1 :=
    createVehicleInfo_wheel_base_m_of_le _ _ _ _ _ _ _ _ _ _ (by norm_num)
  have hlt : (createVehicleInfo (0.3 : ℝ) 0.2 (-1) 1.5 0.4 0.3 0.1 0.1 1.8
      0.5).1.wheel_base_m < 1e-6 := by rw [hb]; norm_num
  exact ⟨hlt, by rw [calcCurvatureFromSteerAngle_of_lt _ _ _ hlt, hb]⟩

/-- C11 (amended): for every geometry returned by `createVehicleInfo` and every steer
angle, `calcCurvatureFromSteerAngle` takes its wheel-base-below-threshold branch, and
returns the NaN sentinel, exactly when the wheel base argument is at most `-1e-6`; for
every wheel base argument above `-1e-6`, zero and near-zero ones included, the clamp keeps
the check from firing and the result is `tan steer_angle / wheel_base_m`. -/
theorem factory_object_nan_branch_iff (tan : α → α)
    (wheel_radius_m wheel_width_m wheel_base_m_arg wheel_tread_m front_overhang_m
      rear_overhang_m left_overhang_m right_overhang_m vehicle_height_m
      max_steer_angle_rad_arg steer_angle : α) :
    (let v := (createVehicleInfo wheel_radius_m wheel_width_m wheel_base_m_arg wheel_tread_m
      front_overhang_m rear_overhang_m left_overhang_m right_overhang_m vehicle_height_m
      max_steer_angle_rad_arg).1
    (v.wheel_base_m < 1e-6 ↔ wheel_base_m_arg ≤ -1e-6) ∧
    ((v.calcCurvatureFromSteerAngle tan steer_angle).1 = none ↔ wheel_base_m_arg ≤ -1e-6) ∧
    (-1e-6 < wheel_base_m_arg →
      v.calcCurvatureFromSteerAngle tan steer_angle
        = (some (tan steer_angle / v.wheel_base_m), []))) := by
  intro v
  have h0 : (0 : α) < 1e-6 := clamp_threshold_pos
  have hiff : v.wheel_base_m < 1e-6 ↔ wheel_base_m_arg ≤ -1e-6 := by
    constructor
    · intro hlt
      by_contra hb
      exact absurd hlt (not_lt.mpr
        (createVehicleInfo_wheel_base_m_ge _ _ _ _ _ _ _ _ _ _ (not_le.mp hb)))
    · intro hb
      have hv : v.wheel_base_m = wheel_base_m_arg :=
        createVehicleInfo_wheel_base_m_of_le _ _ _ _ _ _ _ _ _ _ hb
      rw [hv]
      linarith
  refine ⟨hiff, ?_, fun hb => ?_⟩
  · rw [← hiff]
    constructor
    · intro hn
      by_contra hge
      rw [calcCurvatureFromSteerAngle_of_ge _ _ _ (not_lt.mp hge)] at hn
      exact Option.some_ne_none _ hn
    · intro hlt
      rw [calcCurvatureFromSteerAngle_of_lt _ _ _ hlt]
  · exact calcCurvatureFromSteerAngle_of_ge _ _ _
      (createVehicleInfo_wheel_base_m_ge _ _ _ _ _ _ _ _ _ _ hb)

/-- Witness of the amended C11 over the reals: with the wheel base argument `0` the
constructed wheel base is `1e-6` and the conversion returns a number, with no
diagnostic. -/
theorem factory_object_nan_branch_iff_witness :
    (createVehicleInfo (0.3 : ℝ) 0.2 0 1.5 0.4 0.3 0.1 0.1 1.8
        0.5).1.calcCurvatureFromSteerAngle Real.tan 0.3
      = (some (Real.tan 0.3 /
          (createVehicleInfo (0.3 : ℝ) 0.2 0 1.5 0.4 0.3 0.1 0.1 1.8 0.5).1.wheel_base_m),
        []) :=
  (factory_object_nan_branch_iff Real.tan (0.3 : ℝ) 0.2 0 1.5 0.4 0.3 0.1 0.1 1.8 0.5
    0.3).2.2 (by norm_num)

/-- C13: with the factory returning the object and its diagnostics, for every ten
arguments the non-positive-values diagnostic is emitted exactly once if one of wheel
radius, wheel width, clamped wheel base, wheel tread, the four overhangs, vehicle height
or clamped maximum steer angle is `≤ 0`, and is not emitted otherwise; in both cases the
object is built from the clamped wheel base and steer angle with the eight other base
attributes equal to the arguments. -/
theorem createVehicleInfo_non_positive_diagnostic
    (wheel_radius_m wheel_width_m wheel_base_m_arg wheel_tread_m front_overhang_m
      rear_overhang_m left_overhang_m right_overhang_m vehicle_height_m
      max_steer_angle_rad_arg : α) :
    (let out := createVehicleInfo wheel_radius_m wheel_width_m wheel_base_m_arg wheel_tread_m
      front_overhang_m rear_overhang_m left_overhang_m right_overhang_m vehicle_height_m
      max_steer_angle_rad_arg
    let v := out.1
    (List.count Diagnostic.non_positive_values out.2 =
      if wheel_radius_m ≤ 0 ∨ wheel_width_m ≤ 0 ∨ v.wheel_base_m ≤ 0 ∨ wheel_tread_m ≤ 0 ∨
          front_overhang_m ≤ 0 ∨ rear_overhang_m ≤ 0 ∨ left_overhang_m ≤ 0 ∨
          right_overhang_m ≤ 0 ∨ vehicle_height_m ≤ 0 ∨ v.max_steer_angle_rad ≤ 0
        then 1 else 0) ∧
    (v.wheel_radius_m = wheel_radius_m ∧ v.wheel_width_m = wheel_width_m ∧
      v.wheel_tread_m = wheel_tread_m ∧ v.front_overhang_m = front_overhang_m ∧
      v.rear_overhang_m = rear_overhang_m ∧ v.left_overhang_m = left_overhang_m ∧
      v.right_overhang_m = right_overhang_m ∧ v.vehicle_height_m = vehicle_height_m) ∧
    (v.wheel_base_m = if |wheel_base_m_arg| < 1e-6 then 1e-6 else wheel_base_m_arg) ∧
    (v.max_steer_angle_rad =
      if |max_steer_angle_rad_arg| < 1e-6 then 1e-6 else max_steer_angle_rad_arg)) := by
  intro out v
  refine ⟨?_, ⟨rfl, rfl, rfl, rfl, rfl, rfl, rfl, rfl⟩, rfl, rfl⟩
  have hlog : out.2 = _ := createVehicleInfo_log wheel_radius_m wheel_width_m wheel_base_m_arg
    wheel_tread_m front_overhang_m rear_overhang_m left_overhang_m right_overhang_m
    vehicle_height_m max_steer_angle_rad_arg
  rw [hlog]
  simp only [List.count_append]
  have h1 : List.count Diagnostic.non_positive_values
      (if |wheel_base_m_arg| < 1e-6 then
        [Diagnostic.wheel_base_almost_zero wheel_base_m_arg (1e-6 : α)] else []) = 0 := by
    split_ifs <;> simp
  have h2 : List.count Diagnostic.non_positive_values
      (if |max_steer_angle_rad_arg| < 1e-6 then
        [Diagnostic.max_steer_angle_almost_zero max_steer_angle_rad_arg (1e-6 : α)]
        else []) = 0 := by
    split_ifs <;> simp
  rw [h1, h2]
  split_ifs <;> simp

/-- Witness of C13 over the rationals: a negative wheel radius gives exactly the
non-positive-values diagnostic, and the scenario arguments give no diagnostic. -/
theorem createVehicleInfo_non_positive_diagnostic_witness :
    List.count Diagnostic.non_positive_values
        (createVehicleInfo (-0.3 : ℚ) 0.2 2.5 1.5 0.4 0.3 0.1 0.1 1.8 0.5).2 = 1 ∧
    List.count Diagnostic.non_positive_values
        (createVehicleInfo (0.3 : ℚ) 0.2 2.5 1.5 0.4 0.3 0.1 0.1 1.8 0.5).2 = 0 := by
  constructor
  · rw [(createVehicleInfo_non_positive_diagnostic
      (-0.3 : ℚ) 0.2 2.5 1.5 0.4 0.3 0.1 0.1 1.8 0.5).1, if_pos (Or.inl (by norm_num))]
  · rw [(createVehicleInfo_non_positive_diagnostic
      (0.3 : ℚ) 0.2 2.5 1.5 0.4 0.3 0.1 0.1 1.8 0.5).1, if_neg]
    norm_num [createVehicleInfo_wheel_base_m, createVehicleInfo_max_steer_angle_rad, abs_lt]

/-- C14: for every call of `createVehicleInfo` whose wheel base argument has absolute
value below `1e-6` (for instance `0`), with the other eight dimensions positive and the
maximum steer angle at least `1e-6`, the constructed wheel base is exactly `1e-6` and
exactly one diagnostic is emitted: the wheel-base clamp message with the original value
and `1e-6`. The non-positive-values message is not emitted. -/
theorem createVehicleInfo_near_zero_wheel_base
    (wheel_radius_m wheel_width_m wheel_base_m_arg wheel_tread_m front_overhang_m
      rear_overhang_m left_overhang_m right_overhang_m vehicle_height_m
      max_steer_angle_rad_arg : α)
    (hb : |wheel_base_m_arg| < 1e-6) (hr : 0 < wheel_radius_m) (hw : 0 < wheel_width_m)
    (ht : 0 < wheel_tread_m) (hf : 0 < front_overhang_m) (hre : 0 < rear_overhang_m)
    (hl : 0 < left_overhang_m) (hri : 0 < right_overhang_m) (hh : 0 < vehicle_height_m)
    (hs : 1e-6 ≤ max_steer_angle_rad_arg) :
    (createVehicleInfo wheel_radius_m wheel_width_m wheel_base_m_arg wheel_tread_m
      front_overhang_m rear_overhang_m left_overhang_m right_overhang_m vehicle_height_m
      max_steer_angle_rad_arg).1.wheel_base_m = 1e-6 ∧
    (createVehicleInfo wheel_radius_m wheel_width_m wheel_base_m_arg wheel_tread_m
      front_overhang_m rear_overhang_m left_overhang_m right_overhang_m vehicle_height_m
      max_steer_angle_rad_arg).2 = [Diagnostic.wheel_base_almost_zero wheel_base_m_arg 1e-6] ∧
    Diagnostic.non_positive_values ∉ (createVehicleInfo wheel_radius_m wheel_width_m
      wheel_base_m_arg wheel_tread_m front_overhang_m rear_overhang_m left_overhang_m
      right_overhang_m vehicle_height_m max_steer_angle_rad_arg).2 := by
  have h0 : (0 : α) < 1e-6 := clamp_threshold_pos
  have hs0 : 0 < max_steer_angle_rad_arg := lt_of_lt_of_le h0 hs
  have hsabs : ¬ |max_steer_angle_rad_arg| < 1e-6 := by
    rw [abs_of_pos hs0]; exact not_lt.mpr hs
  have hwb : (createVehicleInfo wheel_radius_m wheel_width_m wheel_base_m_arg wheel_tread_m
      front_overhang_m rear_overhang_m left_overhang_m right_overhang_m vehicle_height_m
      max_steer_angle_rad_arg).1.wheel_base_m = 1e-6 := by
    rw [createVehicleInfo_wheel_base_m, if_pos hb]
  have hst : (createVehicleInfo wheel_radius_m wheel_width_m wheel_base_m_arg wheel_tread_m
      front_overhang_m rear_overhang_m left_overhang_m right_overhang_m vehicle_height_m
      max_steer_angle_rad_arg).1.max_steer_angle_rad = max_steer_angle_rad_arg := by
    rw [createVehicleInfo_max_steer_angle_rad, if_neg hsabs]
  have hlog : (createVehicleInfo wheel_radius_m wheel_width_m wheel_base_m_arg wheel_tread_m
      front_overhang_m rear_overhang_m left_overhang_m right_overhang_m vehicle_height_m
      max_steer_angle_rad_arg).2 = [Diagnostic.wheel_base_almost_zero wheel_base_m_arg 1e-6] := by
    rw [createVehicleInfo_log, hwb, hst, if_pos hb, if_neg hsabs, if_neg]
    · rfl
    · simp only [not_or, not_le]
      exact ⟨hr, hw, h0, ht, hf, hre, hl, hri, hh, hs0⟩
  refine ⟨hwb, hlog, ?_⟩
  rw [hlog]
  simp

/-- Witness of C14 over the rationals: the scenario arguments with the wheel base `0`. -/
theorem createVehicleInfo_near_zero_wheel_base_witness :
    (createVehicleInfo (0.3 : ℚ) 0.2 0 1.5 0.4 0.3 0.1 0.1 1.8 0.5).1.wheel_base_m = 1e-6 ∧
    (createVehicleInfo (0.3 : ℚ) 0.2 0 1.5 0.4 0.3 0.1 0.1 1.8 0.5).2
      = [Diagnostic.wheel_base_almost_zero 0 1e-6] ∧
    Diagnostic.non_positive_values ∉
      (createVehicleInfo (0.3 : ℚ) 0.2 0 1.5 0.4 0.3 0.1 0.1 1.8 0.5).2 :=
  createVehicleInfo_near_zero_wheel_base (0.3 : ℚ) 0.2 0 1.5 0.4 0.3 0.1 0.1 1.8 0.5
    (by norm_num) (by norm_num) (by norm_num) (by norm_num) (by norm_num) (by norm_num)
    (by norm_num) (by norm_num) (by norm_num) (by norm_num)

/-- C15: for every geometry with `wheel_base_m ≥ 1e-6` and `tan max_steer_angle_rad ≠ 0`,
`calcMaxCurvature`, which computes `1 / (wheel_base_m / tan max_steer_angle_rad)` with a
radius that is not `0`, returns the value that
`calcCurvatureFromSteerAngle max_steer_angle_rad` computes directly as
`tan max_steer_angle_rad / wheel_base_m`. -/
theorem calcMaxCurvature_eq_calcCurvatureFromSteerAngle (tan : α → α) (v : VehicleInfo α)
    (hwb : 1e-6 ≤ v.wheel_base_m) (htan : tan v.max_steer_angle_rad ≠ 0) :
    v.calcCurvatureFromSteerAngle tan v.max_steer_angle_rad
      = (some (v.calcMaxCurvature tan), []) ∧
    v.calcMaxCurvature tan = 1 / (v.wheel_base_m / tan v.max_steer_angle_rad) ∧
    v.calcMaxCurvature tan = tan v.max_steer_angle_rad / v.wheel_base_m ∧
    v.wheel_base_m / tan v.max_steer_angle_rad ≠ 0 := by
  have h0 : (0 : α) < 1e-6 := clamp_threshold_pos
  have hwb0 : v.wheel_base_m ≠ 0 := (lt_of_lt_of_le h0 hwb).ne.symm
  have heq : v.calcMaxCurvature tan = tan v.max_steer_angle_rad / v.wheel_base_m := by
    unfold VehicleInfo.calcMaxCurvature
    field_simp
  refine ⟨?_, rfl, heq, div_ne_zero hwb0 htan⟩
  rw [calcCurvatureFromSteerAngle_of_ge _ _ _ hwb, heq]

/-- Witness of C15 over the reals on the scenario geometry: wheel base `2.5`, maximum
steer angle `0.5` with `tan 0.5 > 0`. -/
theorem calcMaxCurvature_eq_calcCurvatureFromSteerAngle_witness :
    (scenario ℝ).calcCurvatureFromSteerAngle Real.tan (scenario ℝ).max_steer_angle_rad
      = (some ((scenario ℝ).calcMaxCurvature Real.tan), []) := by
  have hwb : (scenario ℝ).wheel_base_m = 2.5 := by
    norm_num [scenario, createVehicleInfo, createVehicleInfo.MIN_WHEEL_BASE_M, abs_lt]
  have hst : (scenario ℝ).max_steer_angle_rad = 0.5 := by
    norm_num [scenario, createVehicleInfo, createVehicleInfo.MAX_STEER_ANGLE_RAD, abs_lt]
  have hpi := Real.pi_gt_three
  have htan : Real.tan (scenario ℝ).max_steer_angle_rad ≠ 0 := by
    rw [hst]
    exact (Real.tan_pos_of_pos_of_lt_pi_div_two (by norm_num) (by linarith)).ne.symm
  exact (calcMaxCurvature_eq_calcCurvatureFromSteerAngle Real.tan (scenario ℝ)
    (by rw [hwb]; norm_num) htan).1

/-- C16, as stated, fails: on the scenario geometry with zero margins the edge between
vertices 1 and 2 and the edge between vertices 4 and 5 have the same length `1.7`
(squared `2.89`), so the front edge is not strictly longer; the two `x_center` vertices
3 and 6 have the `y` of their neighbours, so there is no inset. -/
theorem footprint_front_edge_not_longer :
    ∃ p1 p2 p3 p4 p5 p6 p7 : Point2d ℚ,
      (scenario ℚ).createFootprint 0 0 = [p1, p2, p3, p4, p5, p6, p7] ∧
      edge_length_sq p1 p2 = 2.89 ∧ edge_length_sq p4 p5 = 2.89 ∧
      ¬ edge_length_sq p4 p5 < edge_length_sq p1 p2 ∧
      (p2.y = p3.y ∧ p3.y = p4.y) ∧ (p5.y = p6.y ∧ p6.y = p7.y) := by
  refine ⟨_, _, _, _, _, _, _, rfl, ?_, ?_, ?_, ⟨rfl, rfl⟩, ⟨rfl, rfl⟩⟩ <;>
    norm_num [edge_length_sq, scenario, createVehicleInfo,
      createVehicleInfo.MIN_WHEEL_BASE_M, abs_lt]

/-- C16 (amended): for every geometry and every pair of margins, the edge between
vertices 1 and 2 (at `x_front`) has the same length as the edge between vertices 4 and 5
(at `x_rear`), and the two `x_center` vertices are not inset: vertex 3 has the `y`
coordinate of vertices 2 and 4, and vertex 6 has the `y` coordinate of vertices 5 and
7. -/
theorem footprint_front_and_rear_edges_equal (v : VehicleInfo α) (lat_margin lon_margin : α) :
    ∃ p1 p2 p3 p4 p5 p6 p7 : Point2d α,
      v.createFootprint lat_margin lon_margin = [p1, p2, p3, p4, p5, p6, p7] ∧
      (p1.x = p2.x ∧ p4.x = p5.x) ∧
      edge_length_sq p1 p2 = edge_length_sq p4 p5 ∧
      (p3.x = v.wheel_base_m / 2 ∧ p6.x = v.wheel_base_m / 2) ∧
      (p2.y = p3.y ∧ p3.y = p4.y) ∧ (p5.y = p6.y ∧ p6.y = p7.y) ∧ p7 = p1 ∧
      (p1.x = v.front_overhang_m + v.wheel_base_m + lon_margin ∧
        p4.x = -(v.rear_overhang_m + lon_margin)) ∧
      (p3.y = -(v.wheel_tread_m / 2 + v.right_overhang_m + lat_margin) ∧
        p6.y = v.wheel_tread_m / 2 + v.left_overhang_m + lat_margin) := by
  refine ⟨_, _, _, _, _, _, _, rfl, ⟨rfl, rfl⟩, ?_, ⟨rfl, rfl⟩, ⟨rfl, rfl⟩, ⟨rfl, rfl⟩, rfl,
    ⟨rfl, rfl⟩, ⟨rfl, rfl⟩⟩
  simp only [edge_length_sq]
  ring

/-- C17, as stated, fails: on the object `createVehicleInfo` builds with the rear overhang
`-2` the cached longitudinal range is `[2, 2.9]`, but with zero margins the footprint has
the vertex `(1.25, -0.85)` with `x = 1.25 < 2`: the offset ranges are not the bounding box
of the footprint. -/
theorem footprint_outside_offset_ranges :
    (createVehicleInfo (0.3 : ℚ) 0.2 2.5 1.5 0.4 (-2) 0.1 0.1 1.8
        0.5).1.min_longitudinal_offset_m = 2 ∧
    (createVehicleInfo (0.3 : ℚ) 0.2 2.5 1.5 0.4 (-2) 0.1 0.1 1.8
        0.5).1.max_longitudinal_offset_m = 2.9 ∧
    (⟨1.25, -0.85⟩ : Point2d ℚ) ∈
      (createVehicleInfo (0.3 : ℚ) 0.2 2.5 1.5 0.4 (-2) 0.1 0.1 1.8
        0.5).1.createFootprint 0 0 ∧
    ¬ is_bounding_box
      ((createVehicleInfo (0.3 : ℚ) 0.2 2.5 1.5 0.4 (-2) 0.1 0.1 1.8
        0.5).1.createFootprint 0 0)
      (createVehicleInfo (0.3 : ℚ) 0.2 2.5 1.5 0.4 (-2) 0.1 0.1 1.8
        0.5).1.min_longitudinal_offset_m
      (createVehicleInfo (0.3 : ℚ) 0.2 2.5 1.5 0.4 (-2) 0.1 0.1 1.8
        0.5).1.max_longitudinal_offset_m
      (createVehicleInfo (0.3 : ℚ) 0.2 2.5 1.5 0.4 (-2) 0.1 0.1 1.8
        0.5).1.min_lateral_offset_m
      (createVehicleInfo (0.3 : ℚ) 0.2 2.5 1.5 0.4 (-2) 0.1 0.1 1.8
        0.5).1.max_lateral_offset_m := by
  have hmin : (createVehicleInfo (0.3 : ℚ) 0.2 2.5 1.5 0.4 (-2) 0.1 0.1 1.8
      0.5).1.min_longitudinal_offset_m = 2 := by
    norm_num [createVehicleInfo]
  have hmax : (createVehicleInfo (0.3 : ℚ) 0.2 2.5 1.5 0.4 (-2) 0.1 0.1 1.8
      0.5).1.max_longitudinal_offset_m = 2.9 := by
    norm_num [createVehicleInfo, createVehicleInfo.MIN_WHEEL_BASE_M, abs_lt]
  have hmem : (⟨1.25, -0.85⟩ : Point2d ℚ) ∈
      (createVehicleInfo (0.3 : ℚ) 0.2 2.5 1.5 0.4 (-2) 0.1 0.1 1.8
        0.5).1.createFootprint 0 0 := by
    norm_num [createVehicleInfo, createVehicleInfo.MIN_WHEEL_BASE_M, abs_lt,
      VehicleInfo.createFootprint]
  refine ⟨hmin, hmax, hmem, fun hbox => ?_⟩
  have h := (hbox.1 _ hmem).1.1
  rw [hmin] at h
  norm_num at h

/-- C17 (amended): for every geometry returned by `createVehicleInfo` and every
`lat_margin` and `lon_margin`, the footprint coordinates are the cached offset ranges
moved outward by the margins: `x_front = max_longitudinal_offset_m + lon_margin`,
`x_rear = min_longitudinal_offset_m - lon_margin`,
`y_left = max_lateral_offset_m + lat_margin`, `y_right = min_lateral_offset_m - lat_margin`;
hence `x_front - x_rear = vehicle_length_m + 2 * lon_margin` and
`y_left - y_right = vehicle_width_m + 2 * lat_margin`. With zero margins the footprint's
bounding box is the offset ranges exactly when
`min_longitudinal_offset_m ≤ wheel_base_m / 2 ≤ max_longitudinal_offset_m` and
`min_lateral_offset_m ≤ max_lateral_offset_m`. -/
theorem createFootprint_from_offset_ranges
    (wheel_radius_m wheel_width_m wheel_base_m_arg wheel_tread_m front_overhang_m
      rear_overhang_m left_overhang_m right_overhang_m vehicle_height_m
      max_steer_angle_rad_arg lat_margin lon_margin : α) :
    (let v := (createVehicleInfo wheel_radius_m wheel_width_m wheel_base_m_arg wheel_tread_m
      front_overhang_m rear_overhang_m left_overhang_m right_overhang_m vehicle_height_m
      max_steer_angle_rad_arg).1
    let x_front := v.max_longitudinal_offset_m + lon_margin
    let x_rear := v.min_longitudinal_offset_m - lon_margin
    let y_left := v.max_lateral_offset_m + lat_margin
    let y_right := v.min_lateral_offset_m - lat_margin
    v.createFootprint lat_margin lon_margin =
      [⟨x_front, y_left⟩, ⟨x_front, y_right⟩, ⟨v.wheel_base_m / 2, y_right⟩,
       ⟨x_rear, y_right⟩, ⟨x_rear, y_left⟩, ⟨v.wheel_base_m / 2, y_left⟩,
       ⟨x_front, y_left⟩] ∧
    x_front - x_rear = v.vehicle_length_m + 2 * lon_margin ∧
    y_left - y_right = v.vehicle_width_m + 2 * lat_margin ∧
    v.createFootprint 0 0 =
      [⟨v.max_longitudinal_offset_m, v.max_lateral_offset_m⟩,
       ⟨v.max_longitudinal_offset_m, v.min_lateral_offset_m⟩,
       ⟨v.wheel_base_m / 2, v.min_lateral_offset_m⟩,
       ⟨v.min_longitudinal_offset_m, v.min_lateral_offset_m⟩,
       ⟨v.min_longitudinal_offset_m, v.max_lateral_offset_m⟩,
       ⟨v.wheel_base_m / 2, v.max_lateral_offset_m⟩,
       ⟨v.max_longitudinal_offset_m, v.max_lateral_offset_m⟩] ∧
    (is_bounding_box (v.createFootprint 0 0) v.min_longitudinal_offset_m
        v.max_longitudinal_offset_m v.min_lateral_offset_m v.max_lateral_offset_m ↔
      (v.min_longitudinal_offset_m ≤ v.wheel_base_m / 2 ∧
        v.wheel_base_m / 2 ≤ v.max_longitudinal_offset_m) ∧
      v.min_lateral_offset_m ≤ v.max_lateral_offset_m)) := by
  intro v x_front x_rear y_left y_right
  have hfp : v.createFootprint lat_margin lon_margin =
      [⟨x_front, y_left⟩, ⟨x_front, y_right⟩, ⟨v.wheel_base_m / 2, y_right⟩,
       ⟨x_rear, y_right⟩, ⟨x_rear, y_left⟩, ⟨v.wheel_base_m / 2, y_left⟩,
       ⟨x_front, y_left⟩] := by
    have hxr : -(v.rear_overhang_m + lon_margin) = x_rear := by
      show _ = -v.rear_overhang_m - lon_margin
      ring
    have hyr : -(v.wheel_tread_m / 2 + v.right_overhang_m + lat_margin) = y_right := by
      show _ = -(v.wheel_tread_m / 2 + v.right_overhang_m) - lat_margin
      ring
    simp only [VehicleInfo.createFootprint, List.nil_append, List.cons_append, hxr, hyr]
    rfl
  have hfp0 : v.createFootprint 0 0 =
      [⟨v.max_longitudinal_offset_m, v.max_lateral_offset_m⟩,
       ⟨v.max_longitudinal_offset_m, v.min_lateral_offset_m⟩,
       ⟨v.wheel_base_m / 2, v.min_lateral_offset_m⟩,
       ⟨v.min_longitudinal_offset_m, v.min_lateral_offset_m⟩,
       ⟨v.min_longitudinal_offset_m, v.max_lateral_offset_m⟩,
       ⟨v.wheel_base_m / 2, v.max_lateral_offset_m⟩,
       ⟨v.max_longitudinal_offset_m, v.max_lateral_offset_m⟩] := by
    have hx0 : v.front_overhang_m + v.wheel_base_m + 0 = v.max_longitudinal_offset_m :=
      add_zero _
    have hxr0 : -(v.rear_overhang_m + 0) = v.min_longitudinal_offset_m := by
      show _ = -v.rear_overhang_m
      rw [add_zero]
    have hyl0 : v.wheel_tread_m / 2 + v.left_overhang_m + 0 = v.max_lateral_offset_m :=
      add_zero _
    have hyr0 : -(v.wheel_tread_m / 2 + v.right_overhang_m + 0) = v.min_lateral_offset_m := by
      show _ = -(v.wheel_tread_m / 2 + v.right_overhang_m)
      rw [add_zero]
    simp only [VehicleInfo.createFootprint, List.nil_append, List.cons_append, hx0, hxr0,
      hyl0, hyr0]
  refine ⟨hfp, ?_, ?_, hfp0, ?_⟩
  · show v.front_overhang_m + v.wheel_base_m + lon_margin - (-v.rear_overhang_m - lon_margin)
      = v.front_overhang_m + v.wheel_base_m + v.rear_overhang_m + 2 * lon_margin
    ring
  · show v.wheel_tread_m / 2 + v.left_overhang_m + lat_margin
        - (-(v.wheel_tread_m / 2 + v.right_overhang_m) - lat_margin)
      = v.wheel_tread_m + v.left_overhang_m + v.right_overhang_m + 2 * lat_margin
    ring
  · rw [hfp0]
    constructor
    · intro hbox
      have h3 := hbox.1 ⟨v.wheel_base_m / 2, v.min_lateral_offset_m⟩ (by simp)
      have h1 := hbox.1 ⟨v.max_longitudinal_offset_m, v.max_lateral_offset_m⟩ (by simp)
      exact ⟨h3.1, h1.2.1⟩
    · rintro ⟨⟨h1, h2⟩, h3⟩
      have h12 := le_trans h1 h2
      refine ⟨fun p hp => ?_, ⟨⟨v.min_longitudinal_offset_m, v.min_lateral_offset_m⟩,
        by simp, rfl⟩, ⟨⟨v.max_longitudinal_offset_m, v.max_lateral_offset_m⟩, by simp, rfl⟩,
        ⟨⟨v.min_longitudinal_offset_m, v.min_lateral_offset_m⟩, by simp, rfl⟩,
        ⟨⟨v.max_longitudinal_offset_m, v.max_lateral_offset_m⟩, by simp, rfl⟩⟩
      simp only [List.mem_cons, List.mem_singleton, List.not_mem_nil, or_false] at hp
      rcases hp with rfl | rfl | rfl | rfl | rfl | rfl | rfl <;>
        exact ⟨⟨by first | exact le_rfl | assumption, by first | exact le_rfl | assumption⟩,
          ⟨by first | exact le_rfl | assumption, by first | exact le_rfl | assumption⟩⟩

/-- Witness of the amended C17 over the rationals: on the scenario geometry the ranges
are ordered (`-0.3 ≤ 1.25 ≤ 2.9` and `-0.85 ≤ 0.85`), so with zero margins the bounding
box of the footprint is the offset ranges. -/
theorem createFootprint_from_offset_ranges_witness :
    is_bounding_box
      ((createVehicleInfo (0.3 : ℚ) 0.2 2.5 1.5 0.4 0.3 0.1 0.1 1.8
        0.5).1.createFootprint 0 0)
      (createVehicleInfo (0.3 : ℚ) 0.2 2.5 1.5 0.4 0.3 0.1 0.1 1.8
        0.5).1.min_longitudinal_offset_m
      (createVehicleInfo (0.3 : ℚ) 0.2 2.5 1.5 0.4 0.3 0.1 0.1 1.8
        0.5).1.max_longitudinal_offset_m
      (createVehicleInfo (0.3 : ℚ) 0.2 2.5 1.5 0.4 0.3 0.1 0.1 1.8
        0.5).1.min_lateral_offset_m
      (createVehicleInfo (0.3 : ℚ) 0.2 2.5 1.5 0.4 0.3 0.1 0.1 1.8
        0.5).1.max_lateral_offset_m :=
  (createFootprint_from_offset_ranges (0.3 : ℚ) 0.2 2.5 1.5 0.4 0.3 0.1 0.1 1.8 0.5
    0 0).2.2.2.2.mpr (by
      norm_num [createVehicleInfo, createVehicleInfo.MIN_WHEEL_BASE_M, abs_lt])

/-- C18: for every geometry with `wheel_base_m > 0` and every curvature `c`,
`calcSteerAngleFromCurvature c` lies in `[0, π)`: it is `0` for `|c| < 1e-6`, strictly
between `0` and `π / 2` for `c ≥ 1e-6`, and strictly between `π / 2` and `π` for
`c ≤ -1e-6`; it is never negative. -/
theorem calcSteerAngleFromCurvature_range (v : VehicleInfo ℝ) (c : ℝ)
    (hwb : 0 < v.wheel_base_m) :
    (0 ≤ v.calcSteerAngleFromCurvature atan2 c ∧
      v.calcSteerAngleFromCurvature atan2 c < Real.pi) ∧
    (|c| < 1e-6 → v.calcSteerAngleFromCurvature atan2 c = 0) ∧
    (1e-6 ≤ c → 0 < v.calcSteerAngleFromCurvature atan2 c ∧
      v.calcSteerAngleFromCurvature atan2 c < Real.pi / 2) ∧
    (c ≤ -1e-6 → Real.pi / 2 < v.calcSteerAngleFromCurvature atan2 c ∧
      v.calcSteerAngleFromCurvature atan2 c < Real.pi) ∧
    ¬ v.calcSteerAngleFromCurvature atan2 c < 0 := by
  have h0 : (0 : ℝ) < 1e-6 := clamp_threshold_pos
  have hpi := Real.pi_pos
  have hzero : |c| < 1e-6 → v.calcSteerAngleFromCurvature atan2 c = 0 :=
    calcSteerAngleFromCurvature_of_lt atan2 v c
  have hpos : 1e-6 ≤ c → 0 < v.calcSteerAngleFromCurvature atan2 c ∧
      v.calcSteerAngleFromCurvature atan2 c < Real.pi / 2 := by
    intro hc
    have hc0 : 0 < c := lt_of_lt_of_le h0 hc
    rw [calcSteerAngleFromCurvature_of_ge atan2 v c (by rw [abs_of_pos hc0]; exact hc)]
    exact atan2_acute _ _ hwb (one_div_pos.mpr hc0)
  have hneg : c ≤ -1e-6 → Real.pi / 2 < v.calcSteerAngleFromCurvature atan2 c ∧
      v.calcSteerAngleFromCurvature atan2 c < Real.pi := by
    intro hc
    have hc0 : c < 0 := by linarith
    rw [calcSteerAngleFromCurvature_of_ge atan2 v c
      (by rw [abs_of_neg hc0]; linarith)]
    exact atan2_obtuse _ _ hwb (one_div_neg.mpr hc0)
  have hrange : 0 ≤ v.calcSteerAngleFromCurvature atan2 c ∧
      v.calcSteerAngleFromCurvature atan2 c < Real.pi := by
    by_cases hlt : |c| < 1e-6
    · rw [hzero hlt]; exact ⟨le_rfl, hpi⟩
    · rcases le_abs.mp (not_lt.mp hlt) with hc | hc
      · have := hpos hc
        exact ⟨this.1.le, by linarith [this.2]⟩
      · have := hneg (by linarith)
        exact ⟨by linarith [this.1], this.2⟩
  exact ⟨hrange, hzero, hpos, hneg, not_lt.mpr hrange.1⟩

/-- Witness of C18 over the reals on the scenario geometry (wheel base `2.5`) at the
curvature `-0.2`: the steer angle is obtuse. -/
theorem calcSteerAngleFromCurvature_range_witness :
    Real.pi / 2 < (scenario ℝ).calcSteerAngleFromCurvature atan2 (-0.2) ∧
    (scenario ℝ).calcSteerAngleFromCurvature atan2 (-0.2) < Real.pi := by
  have hwb : (scenario ℝ).wheel_base_m = 2.5 := by
    norm_num [scenario, createVehicleInfo, createVehicleInfo.MIN_WHEEL_BASE_M, abs_lt]
  exact (calcSteerAngleFromCurvature_range (scenario ℝ) (-0.2)
    (by rw [hwb]; norm_num)).2.2.2.1 (by norm_num)

/-- C19: normalisation by `createVehicleInfo` is idempotent: for every ten arguments,
passing the ten base attributes of the constructed object back to `createVehicleInfo`
returns an object equal to it in all eighteen fields, and emits neither clamp
diagnostic. -/
theorem createVehicleInfo_idempotent
    (wheel_radius_m wheel_width_m wheel_base_m_arg wheel_tread_m front_overhang_m
      rear_overhang_m left_overhang_m right_overhang_m vehicle_height_m
      max_steer_angle_rad_arg : α) :
    (let v := (createVehicleInfo wheel_radius_m wheel_width_m wheel_base_m_arg wheel_tread_m
      front_overhang_m rear_overhang_m left_overhang_m right_overhang_m vehicle_height_m
      max_steer_angle_rad_arg).1
    let again := createVehicleInfo v.wheel_radius_m v.wheel_width_m v.wheel_base_m
      v.wheel_tread_m v.front_overhang_m v.rear_overhang_m v.left_overhang_m
      v.right_overhang_m v.vehicle_height_m v.max_steer_angle_rad
    again.1 = v ∧
    (∀ original replacement : α,
      Diagnostic.wheel_base_almost_zero original replacement ∉ again.2 ∧
      Diagnostic.max_steer_angle_almost_zero original replacement ∉ again.2) ∧
    (again.2 = [] ∨ again.2 = [Diagnostic.non_positive_values])) := by
  intro v again
  have hb : (1e-6 : α) ≤ |v.wheel_base_m| := clamp_abs_ge wheel_base_m_arg
  have hs : (1e-6 : α) ≤ |v.max_steer_angle_rad| := clamp_abs_ge max_steer_angle_rad_arg
  have hobj : again.1 = v :=
    createVehicleInfo_of_not_clamped _ _ _ _ _ _ _ _ _ _ hb hs
  have hlog : again.2 = [] ∨ again.2 = [Diagnostic.non_positive_values] := by
    have h := createVehicleInfo_log v.wheel_radius_m v.wheel_width_m v.wheel_base_m
      v.wheel_tread_m v.front_overhang_m v.rear_overhang_m v.left_overhang_m
      v.right_overhang_m v.vehicle_height_m v.max_steer_angle_rad
    rw [if_neg (not_lt.mpr hb), if_neg (not_lt.mpr hs)] at h
    show (createVehicleInfo v.wheel_radius_m v.wheel_width_m v.wheel_base_m
      v.wheel_tread_m v.front_overhang_m v.rear_overhang_m v.left_overhang_m
      v.right_overhang_m v.vehicle_height_m v.max_steer_angle_rad).2 = [] ∨ _
    rw [h]
    split_ifs
    · exact Or.inr rfl
    · exact Or.inl rfl
  refine ⟨hobj, fun original replacement => ?_, hlog⟩
  rcases hlog with h | h <;> rw [h] <;> simp

/-- Witness of C19 over the rationals: the arguments with wheel base `0` and maximum steer
angle `-1e-7` are normalised to `1e-6` and `1e-6`; a second pass returns the same object
with no diagnostic. -/
theorem createVehicleInfo_idempotent_witness :
    createVehicleInfo (0.3 : ℚ) 0.2 1e-6 1.5 0.4 0.3 0.1 0.1 1.8 1e-6
      = ((createVehicleInfo (0.3 : ℚ) 0.2 0 1.5 0.4 0.3 0.1 0.1 1.8 (-1e-7)).1, []) := by
  have h := createVehicleInfo_idempotent (0.3 : ℚ) 0.2 0 1.5 0.4 0.3 0.1 0.1 1.8 (-1e-7)
  have hwb : (createVehicleInfo (0.3 : ℚ) 0.2 0 1.5 0.4 0.3 0.1 0.1 1.8
      (-1e-7)).1.wheel_base_m = 1e-6 := by
    rw [createVehicleInfo_wheel_base_m]; norm_num [abs_lt]
  have hst : (createVehicleInfo (0.3 : ℚ) 0.2 0 1.5 0.4 0.3 0.1 0.1 1.8
      (-1e-7)).1.max_steer_angle_rad = 1e-6 := by
    rw [createVehicleInfo_max_steer_angle_rad]; norm_num [abs_lt]
  simp only [] at h
  rw [hwb, hst] at h
  refine Prod.ext h.1 ?_
  rw [createVehicleInfo_log]
  norm_num [createVehicleInfo_wheel_base_m, createVehicleInfo_max_steer_angle_rad, abs_lt]

end Claims

end autoware.vehicle_info_utils
